import Mathlib

/-!
Shallow embedding of the batching proxy in src/main.rs.

The service accumulates embed requests (Jobs) into batches inside the
background task handle_batch, posts each batch to the upstream service,
normalizes the response into an ordered result list, and resolves each Job
by sending on its oneshot channel. The definitions below are translated
from the Rust source; line numbers refer to src/main.rs.
-/

set_option autoImplicit false

namespace BatchProxy

/-- JSON values as used by the service (serde_json Value). Numbers are
abstracted as integers since no claim depends on numeric content. -/
inductive Json where
  | null
  | bool (b : Bool)
  | num (n : Int)
  | str (s : String)
  | arr (xs : List Json)
  | obj (fields : List (String × Json))

/-- Configuration constant, line 72 of the source. -/
def MAX_BATCH_SIZE : Nat := 32

/-- Configuration constant, line 73 of the source (10 seconds). -/
def MAX_WAIT_TIME_MILLIS : Nat := 10000

/-- Lookup of an object key, as serde_json Value.get with a string key:
some value for the first matching key of an object, none for every
non-object value. -/
def Json.getKey : Json → String → Option Json
  | .obj fields, k => fields.lookup k
  | _, _ => none

/-- serde_json Value.as_array: the element list of an array value, none
otherwise. -/
def Json.asArray : Json → Option (List Json)
  | .arr xs => some xs
  | _ => none

/-- The uniform failure value sent on upstream failure, lines 185 and 195:
a JSON object with key error mapped to the string upstream failed. -/
def upstreamFailedJson : Json :=
  Json.obj [("error", Json.str "upstream failed")]

/-- Lines 170-176: normalization of a parsed upstream body. First the key
data is tried and, when it holds an array, that array is the result list;
otherwise, when the whole value is an array, that array is the result
list; otherwise the result list is empty. -/
def normalizeResults (val : Json) : List Json :=
  match (val.getKey "data").bind Json.asArray with
  | some data => data
  | none =>
    match val.asArray with
    | some arr => arr
    | none => []

/-- Lines 177-179: batch.into_iter().zip(results) sends result i to job i
for i below the shorter length; jobs beyond the result list are consumed
by the iterator without a send, so their oneshot senders are dropped.
Entry i is some v when job i receives v on its channel and none when the
sender of job i is dropped without a value. The batch is a list of job
inputs, kept only for its length and order. -/
def resolveBatch (batch : List String) (results : List Json) : List (Option Json) :=
  (batch.zip results).map (fun p => some p.2)
    ++ (batch.drop results.length).map (fun _ => (none : Option Json))

/-- Outcome of the reqwest POST of lines 162-167. sendError is a failure of
send await itself (connection-level failure or timeout): reqwest send does
not fail on a non-2xx status, so any received HTTP response, whatever its
status, is the response case, carrying the status and the body parse
outcome (none when the body is not valid JSON, line 167). -/
inductive HttpResult where
  | sendError
  | response (status : Nat) (body : Option Json)

/-- Lines 162-199: what each job of a dispatched batch observes on its
oneshot channel. The status of a received response is never inspected by
the source. -/
def cycleResolutions (batch : List String) (r : HttpResult) : List (Option Json) :=
  match r with
  | .sendError => batch.map (fun _ => some upstreamFailedJson)
  | .response _ body =>
    match body with
    | none => batch.map (fun _ => some upstreamFailedJson)
    | some val => resolveBatch batch (normalizeResults val)

/-- One outcome of the select of lines 142-159 during batch filling: either
recv yielded a job with the given input, or the alarm fired. A recv that
yields None because the queue is closed is modelled by exhaustion of the
event list. -/
inductive FillEvent where
  | job (input : String)
  | timeout

/-- The filling loop of lines 141-160: while the batch is below
MAX_BATCH_SIZE, consume the next select outcome; a job is appended, the
alarm or a closed queue ends the loop. Returns the closed batch and the
events left for later cycles. The inner length check of lines 147-150 is
unreachable (the loop guard already bounds the length) and adds nothing. -/
def fillBatchAux : List FillEvent → List String → List String × List FillEvent
  | [], batch => (batch, [])
  | e :: rest, batch =>
    if batch.length < MAX_BATCH_SIZE then
      match e with
      | .job s => fillBatchAux rest (batch ++ [s])
      | .timeout => (batch, rest)
    else (batch, e :: rest)

/-- Observable effects of one outer-loop iteration after filling.
upstreamCall records whether a POST was made this cycle and with which
input payload. -/
structure CycleResult where
  upstreamCall : Option (List String)
  resolutions : List (Option Json)

/-- Lines 161-199 for a closed batch: the POST of lines 162-165 is made
unconditionally, with copies_to_send equal to the batch inputs in order,
also when the batch is empty; then the jobs are resolved per the match
arms. -/
def dispatchCycle (batch : List String) (r : HttpResult) : CycleResult :=
  { upstreamCall := some batch
  , resolutions := cycleResolutions batch r }

/-- One full assembly cycle from a fresh batch: fill, then dispatch. -/
def runCycle (events : List FillEvent) (r : HttpResult) : CycleResult :=
  dispatchCycle (fillBatchAux events []).1 r

/-- The outer loop of handle_batch, lines 137-200. The source loop has no
break and no return, so after every cycle another cycle begins
unconditionally; the outcome list bounds how many cycles are observed and
supplies the HTTP outcome of each. An empty event list means the queue is
closed, so every recv returns None at once. -/
def handle_batch_run : List HttpResult → List FillEvent → List CycleResult
  | [], _ => []
  | r :: rs, events =>
    let step := fillBatchAux events []
    dispatchCycle step.1 r :: handle_batch_run rs step.2

/-- Lines 117-132: the request handler. enqueueOk is whether sender.send
succeeded; resolution is what the oneshot receiver observes (some v when
the distributor sent v, none when the sender was dropped without a value,
which makes the receiver await return Err). -/
def handle_query (enqueueOk : Bool) (resolution : Option Json) : Json :=
  if enqueueOk then
    match resolution with
    | some v => Json.obj [("embedding", v)]
    | none => Json.obj [("embedding", Json.str "Batching Failed. Try again.")]
  else Json.obj [("embedding", Json.str "Failed to batch.")]

/-- Timed view of the filling loop of lines 137-160, as the code runs it:
the alarm_clock sleep is created at line 139, before the first recv, so
the deadline is cycleStart + MAX_WAIT_TIME_MILLIS. arrivals lists the
pending queue items as pairs of arrival time and input, in FIFO order; an
arrival strictly before the deadline wins the select, otherwise the alarm
fires first and closes the batch. -/
def fillTimed (cycleStart : Nat) : List (Nat × String) → List String → List String
  | [], batch => batch
  | (t, s) :: rest, batch =>
    if batch.length < MAX_BATCH_SIZE then
      if t < cycleStart + MAX_WAIT_TIME_MILLIS then
        fillTimed cycleStart rest (batch ++ [s])
      else batch
    else batch

/-- Modelled from the spec: the deadline timer of MAX_WAIT_TIME is measured
from the first Job admitted to the new batch, not from cycle start, and a
batch with zero Jobs consumes no wall-clock budget. The third argument is
the deadline, absent until the first job is admitted. -/
def fillTimedSpec : List (Nat × String) → List String → Option Nat → List String
  | [], batch, _ => batch
  | (t, s) :: rest, batch, deadline =>
    if batch.length < MAX_BATCH_SIZE then
      match deadline with
      | none => fillTimedSpec rest (batch ++ [s]) (some (t + MAX_WAIT_TIME_MILLIS))
      | some d =>
        if t < d then fillTimedSpec rest (batch ++ [s]) (some d)
        else batch
    else batch

theorem resolveBatch_nil (results : List Json) : resolveBatch [] results = [] := by
  simp [resolveBatch]

theorem resolveBatch_cons_cons (b : String) (bs : List String) (r : Json) (rs : List Json) :
    resolveBatch (b :: bs) (r :: rs) = some r :: resolveBatch bs rs := by
  simp [resolveBatch]

theorem resolveBatch_cons_nil (b : String) (bs : List String) :
    resolveBatch (b :: bs) [] = none :: resolveBatch bs [] := by
  simp [resolveBatch]

theorem resolveBatch_short (batch : List String) (results : List Json)
    (h : results.length ≤ batch.length) :
    resolveBatch batch results
      = results.map some ++ List.replicate (batch.length - results.length) none := by
  induction batch generalizing results with
  | nil =>
    have : results = [] := List.eq_nil_of_length_eq_zero (Nat.le_zero.mp (by simpa using h))
    subst this
    simp [resolveBatch_nil]
  | cons b bs ih =>
    cases results with
    | nil =>
      have := ih [] (by simp)
      simp only [resolveBatch_cons_nil, this]
      simp [List.replicate_succ]
    | cons r rs =>
      have := ih rs (by simpa using Nat.succ_le_succ_iff.mp (by simpa using h))
      simp [resolveBatch_cons_cons, this, Nat.succ_sub_succ]

theorem resolveBatch_length_eq (batch : List String) (results : List Json)
    (h : results.length = batch.length) :
    resolveBatch batch results = results.map some := by
  have := resolveBatch_short batch results (le_of_eq h)
  simpa [h] using this

theorem resolveBatch_long (batch : List String) (results : List Json)
    (h : batch.length ≤ results.length) :
    resolveBatch batch results = (results.take batch.length).map some := by
  induction batch generalizing results with
  | nil => simp [resolveBatch_nil]
  | cons b bs ih =>
    cases results with
    | nil => simp at h
    | cons r rs =>
      have := ih rs (by simpa using Nat.succ_le_succ_iff.mp (by simpa using h))
      simp [resolveBatch_cons_cons, this]

theorem resolveBatch_getElem?_none (batch : List String) (results : List Json) (i : Nat)
    (h₁ : results.length ≤ i) (h₂ : i < batch.length) :
    (resolveBatch batch results)[i]? = some none := by
  induction batch generalizing results i with
  | nil => simp at h₂
  | cons b bs ih =>
    cases results with
    | nil =>
      cases i with
      | zero => simp [resolveBatch_cons_nil]
      | succ j =>
        simp only [resolveBatch_cons_nil, List.getElem?_cons_succ]
        exact ih [] j (by simp) (by simpa using h₂)
    | cons r rs =>
      cases i with
      | zero => simp at h₁
      | succ j =>
        simp only [resolveBatch_cons_cons, List.getElem?_cons_succ]
        exact ih rs j (by simpa using h₁) (by simpa using h₂)

theorem fillBatchAux_length_le (events : List FillEvent) (batch : List String)
    (h : batch.length ≤ MAX_BATCH_SIZE) :
    (fillBatchAux events batch).1.length ≤ MAX_BATCH_SIZE := by
  induction events generalizing batch with
  | nil => simpa [fillBatchAux] using h
  | cons e rest ih =>
    simp only [fillBatchAux]
    by_cases hlt : batch.length < MAX_BATCH_SIZE
    · simp only [hlt, if_true]
      cases e with
      | job s => exact ih (batch ++ [s]) (by simpa using hlt)
      | timeout => simpa using h
    · simp only [hlt, if_false]
      simpa using h

theorem handle_batch_run_length (rs : List HttpResult) (events : List FillEvent) :
    (handle_batch_run rs events).length = rs.length := by
  induction rs generalizing events with
  | nil => simp [handle_batch_run]
  | cons r rs ih => simp [handle_batch_run, ih]

/-- C1: for a dispatched batch whose upstream response parses and
normalizes to a result list of exactly the batch length, job i is resolved
with result i for every position i, in order: the resolution list is the
normalized result list itself, so within-batch submission order is never
reordered. -/
theorem C1_order_preservation (batch : List String) (st : Nat) (val : Json)
    (h : (normalizeResults val).length = batch.length) :
    cycleResolutions batch (HttpResult.response st (some val))
      = (normalizeResults val).map some := by
  simpa [cycleResolutions] using resolveBatch_length_eq batch (normalizeResults val) h

theorem C1_order_preservation_witness :
    (normalizeResults (Json.arr [Json.num 1, Json.num 2])).length
        = (["a", "b"] : List String).length
    ∧ cycleResolutions ["a", "b"]
        (HttpResult.response 200 (some (Json.arr [Json.num 1, Json.num 2])))
      = (normalizeResults (Json.arr [Json.num 1, Json.num 2])).map some :=
  ⟨rfl, C1_order_preservation ["a", "b"] 200 (Json.arr [Json.num 1, Json.num 2]) rfl⟩

/-- C2 counterexample: the claim counts a non-2xx status as an upstream
failure, but the source never inspects the status (reqwest send only fails
at connection level). A 500 response whose body is the JSON object with
key error mapped to boom parses fine, normalizes to the empty list, and
the single job is dropped unresolved instead of being resolved with the
uniform failure value. -/
theorem C2_counterexample :
    cycleResolutions ["a"]
        (HttpResult.response 500 (some (Json.obj [("error", Json.str "boom")])))
      = [none]
    ∧ ([none] : List (Option Json)) ≠ [some upstreamFailedJson] := by
  refine ⟨rfl, ?_⟩
  intro h
  simp at h

/-- C2 amended: when the send itself fails (connection-level failure or
timeout) or the received body fails to parse as JSON, every job of the
batch is resolved with the uniform failure value, and the background loop
still runs every later cycle. A non-2xx response with a JSON body is not
detected as a failure: it is processed like any parsed response. -/
theorem C2_uniform_failure (batch : List String) (r : HttpResult)
    (rs : List HttpResult) (events : List FillEvent)
    (h : r = HttpResult.sendError ∨ ∃ st, r = HttpResult.response st none) :
    cycleResolutions batch r = batch.map (fun _ => some upstreamFailedJson)
    ∧ (handle_batch_run (r :: rs) events).length = rs.length + 1 := by
  constructor
  · rcases h with h | ⟨st, h⟩ <;> subst h <;> rfl
  · simp [handle_batch_run, handle_batch_run_length]

theorem C2_uniform_failure_witness :
    (HttpResult.sendError = HttpResult.sendError
      ∨ ∃ st, HttpResult.sendError = HttpResult.response st none)
    ∧ (cycleResolutions ["x"] HttpResult.sendError
          = (["x"] : List String).map (fun _ => some upstreamFailedJson)
       ∧ (handle_batch_run [HttpResult.sendError] []).length = 1) :=
  ⟨Or.inl rfl, C2_uniform_failure ["x"] HttpResult.sendError [] [] (Or.inl rfl)⟩

/-- C3: a bare array body and an object body holding the same array under
the key data normalize to the same ordered result list, and a batch
dispatched against either body yields identical per-caller resolutions. -/
theorem C3_shape_equivalence (batch : List String) (xs : List Json) (st₁ st₂ : Nat) :
    normalizeResults (Json.arr xs)
        = normalizeResults (Json.obj [("data", Json.arr xs)])
    ∧ cycleResolutions batch (HttpResult.response st₁ (some (Json.arr xs)))
      = cycleResolutions batch
          (HttpResult.response st₂ (some (Json.obj [("data", Json.arr xs)]))) :=
  ⟨rfl, rfl⟩

/-- C4: when the parsed response normalizes to fewer results than jobs,
the first M jobs are resolved with results 0 to M-1 in order and the
remaining jobs have their senders dropped without a value; this covers the
case of a body in neither recognized shape, which normalizes to the empty
list and leaves every job unresolved. -/
theorem C4_underlength_drops_tail (batch : List String) (st : Nat) (val : Json)
    (h : (normalizeResults val).length < batch.length) :
    cycleResolutions batch (HttpResult.response st (some val))
      = (normalizeResults val).map some
        ++ List.replicate (batch.length - (normalizeResults val).length) none := by
  simpa [cycleResolutions] using
    resolveBatch_short batch (normalizeResults val) (le_of_lt h)

theorem C4_underlength_drops_tail_witness :
    (normalizeResults (Json.arr [Json.num 5])).length < (["a", "b", "c"] : List String).length
    ∧ cycleResolutions ["a", "b", "c"] (HttpResult.response 200 (some (Json.arr [Json.num 5])))
      = (normalizeResults (Json.arr [Json.num 5])).map some
        ++ List.replicate
            ((["a", "b", "c"] : List String).length
              - (normalizeResults (Json.arr [Json.num 5])).length) none :=
  ⟨by decide, C4_underlength_drops_tail ["a", "b", "c"] 200 (Json.arr [Json.num 5]) (by decide)⟩

/-- C5: a job whose position lies beyond the normalized result list has
its sender dropped (its resolution entry is none), and the handler of
lines 126-131 turns a dropped sender into the terminal response whose
embedding field is the string Batching Failed. Try again., so the caller
does not wait forever. -/
theorem C5_dropped_handle_terminal (batch : List String) (st : Nat) (val : Json)
    (i : Nat) (h₁ : (normalizeResults val).length ≤ i) (h₂ : i < batch.length) :
    (cycleResolutions batch (HttpResult.response st (some val)))[i]? = some none
    ∧ handle_query true none
        = Json.obj [("embedding", Json.str "Batching Failed. Try again.")] := by
  refine ⟨?_, rfl⟩
  simpa [cycleResolutions] using
    resolveBatch_getElem?_none batch (normalizeResults val) i h₁ h₂

theorem C5_dropped_handle_terminal_witness :
    (normalizeResults (Json.num 7)).length ≤ 1
    ∧ 1 < (["a", "b"] : List String).length
    ∧ (cycleResolutions ["a", "b"] (HttpResult.response 200 (some (Json.num 7))))[1]? = some none
    ∧ handle_query true none
        = Json.obj [("embedding", Json.str "Batching Failed. Try again.")] :=
  ⟨by decide, by decide,
    (C5_dropped_handle_terminal ["a", "b"] 200 (Json.num 7) 1 (by decide) (by decide)).1,
    (C5_dropped_handle_terminal ["a", "b"] 200 (Json.num 7) 1 (by decide) (by decide)).2⟩

/-- C6 counterexample: an assembly cycle whose only event is the elapsed
deadline accumulates zero jobs, yet the cycle still makes an upstream call
(the POST of lines 162-165 is unconditional), carrying an empty input
list, against the claim that no network call is made. -/
theorem C6_counterexample :
    (fillBatchAux [FillEvent.timeout] []).1 = []
    ∧ (runCycle [FillEvent.timeout] HttpResult.sendError).upstreamCall = some []
    ∧ (runCycle [FillEvent.timeout] HttpResult.sendError).upstreamCall ≠ none := by
  refine ⟨rfl, rfl, ?_⟩
  intro h
  simp [runCycle, dispatchCycle, fillBatchAux] at h

/-- C6 amended: whenever a cycle closes with zero jobs accumulated, the
assembler still makes an upstream network call for that cycle, carrying an
empty input list. -/
theorem C6_empty_batch_still_calls (events : List FillEvent) (r : HttpResult)
    (h : (fillBatchAux events []).1 = []) :
    (runCycle events r).upstreamCall = some [] := by
  simp [runCycle, dispatchCycle, h]

theorem C6_empty_batch_still_calls_witness :
    (fillBatchAux [FillEvent.timeout] []).1 = []
    ∧ (runCycle [FillEvent.timeout] (HttpResult.response 200 none)).upstreamCall = some [] :=
  ⟨rfl, C6_empty_batch_still_calls [FillEvent.timeout] (HttpResult.response 200 none) rfl⟩

/-- C7 counterexample: with the submission queue closed and the current
batch empty, the assembler does not terminate; it runs three further
observed cycles, each making an upstream call with an empty batch, since
the outer loop of lines 137-200 has no break and no return. -/
theorem C7_counterexample :
    (handle_batch_run
        [HttpResult.sendError, HttpResult.sendError, HttpResult.sendError] []).map
      CycleResult.upstreamCall
      = [some [], some [], some []] := rfl

/-- C7 amended: on queue end-of-stream the assembler stops filling the
current batch and dispatches it even when empty, then keeps looping: with
the queue closed it performs one upstream call with an empty batch in
every subsequent observed cycle, however many are observed, and never
terminates. -/
theorem C7_no_termination_after_close (rs : List HttpResult) :
    (handle_batch_run rs []).map CycleResult.upstreamCall
      = rs.map (fun _ => some []) := by
  induction rs with
  | nil => rfl
  | cons r rest ih => simp [handle_batch_run, fillBatchAux, dispatchCycle, ih]

/-- C8 counterexample: a deadline that elapses with zero jobs closes a
batch of length 0 which is nevertheless handed to the upstream client,
against the claimed lower bound of 1. -/
theorem C8_counterexample :
    (fillBatchAux [FillEvent.timeout] []).1.length = 0
    ∧ (dispatchCycle (fillBatchAux [FillEvent.timeout] []).1 HttpResult.sendError).upstreamCall
        = some (fillBatchAux [FillEvent.timeout] []).1 :=
  ⟨rfl, rfl⟩

/-- C8 amended: every batch handed to the upstream client has length at
most MAX_BATCH_SIZE; the length can be 0, namely when the deadline elapses
or the queue closes with no job accumulated, and the empty batch is still
dispatched. -/
theorem C8_batch_size_upper_bound (events : List FillEvent) :
    (fillBatchAux events []).1.length ≤ MAX_BATCH_SIZE :=
  fillBatchAux_length_le events [] (by decide)

/-- C9: the code arms the alarm at line 139, before the first recv, so the
deadline is MAX_WAIT_TIME_MILLIS after cycle start, not after the first
admitted job, contradicting the module documentation of lines 12-13 and
the claim. With cycle start 0, a first job arriving at 9000 and a second
at 10001, the code closes the batch at the 10000 mark with only the first
job, while the spec-modelled first-job-relative deadline of 19000 admits
both jobs. -/
theorem C9_deadline_measured_from_cycle_start :
    fillTimed 0 [(9000, "a"), (10001, "b")] [] = ["a"]
    ∧ fillTimedSpec [(9000, "a"), (10001, "b")] [] none = ["a", "b"]
    ∧ (["a"] : List String) ≠ ["a", "b"] := by
  refine ⟨rfl, rfl, ?_⟩
  intro h
  simp at h

/-- C10: when the parsed response normalizes to more results than jobs,
every job i is still resolved with result i (the resolution list is the
batch-length prefix of the results, all sent), the surplus results are
discarded by the zip, and no job is left unresolved. -/
theorem C10_overlength_discards_surplus (batch : List String) (st : Nat) (val : Json)
    (h : batch.length < (normalizeResults val).length) :
    cycleResolutions batch (HttpResult.response st (some val))
      = ((normalizeResults val).take batch.length).map some := by
  simpa [cycleResolutions] using
    resolveBatch_long batch (normalizeResults val) (le_of_lt h)

theorem C10_overlength_discards_surplus_witness :
    (["a"] : List String).length < (normalizeResults (Json.arr [Json.num 1, Json.num 2])).length
    ∧ cycleResolutions ["a"] (HttpResult.response 200 (some (Json.arr [Json.num 1, Json.num 2])))
      = ((normalizeResults (Json.arr [Json.num 1, Json.num 2])).take
          (["a"] : List String).length).map some :=
  ⟨by decide, C10_overlength_discards_surplus ["a"] 200 (Json.arr [Json.num 1, Json.num 2]) (by decide)⟩

end BatchProxy

